import Mathlib

set_option maxRecDepth 8000

/-!
Verification development for the WebSearchPup search-result scraper.

The definitions below are a shallow embedding of the TypeScript sources:
  * src/config/types.ts, src/config/default-config.ts (data model, constants)
  * src/extractors/* (six region extractors and the follow-up resolver)
  * src/scraper/search-result-scraper.ts (search driver and aggregator)
  * src/output/result-formatter.ts and src/output/result-saver.ts (serializer
    and persistence)

Browser/DOM effects are modelled by explicit oracle structures: a snapshot
records, for each region, whether the bounded wait succeeded, whether the
in-page evaluation succeeded (the safeEvaluate helper catches evaluation
errors and yields null, which the callers turn into an empty list via
`x || []`), and the list of DOM nodes the region selector matched, each node
carrying the raw text / attribute values the mapping function reads.
-/

/-- JavaScript `x || null` applied to a nullable string: the empty string is
falsy, so `"" || null` is `null`.  Used for patterns such as
`element.textContent?.trim() || null` and `el.getAttribute(n) || null`. -/
def jsOrNull : Option String → Option String
  | some s => if s = "" then none else some s
  | none => none

/-- JavaScript `x || d` with a string default: `null`, `undefined` and `""`
all fall through to the default. -/
def jsOr : Option String → String → String
  | some s, d => if s = "" then d else s
  | none, d => d

/-- JavaScript truthiness test for a nullable string (used by guards such as
`if (snippet.source)`). -/
def jsTruthy : Option String → Bool
  | some s => s != ""
  | none => false

/-- JavaScript template-literal interpolation of a nullable string:
`null` prints as the text "null". -/
def jsTemplate : Option String → String
  | some s => s
  | none => "null"

/-- The 100-character truncation used by FeaturedSnippetsExtractor.extract
(`textContent.slice(0, 100) + '…'` when `textContent.length > 100`) and by
SearchResultScraper.extractSearchResults for the page-text excerpt
(`pageText.length > 100 ? pageText.slice(0, 100) + '…' : pageText`). -/
def truncate100 (s : String) : String :=
  if 100 < s.length then String.mk (s.data.take 100) ++ "…" else s

/-- JavaScript `s.includes(pat)` on strings. -/
def containsSub (s pat : String) : Bool :=
  decide (pat.data <:+: s.data)

/- ===================== Data model (src/config/types.ts) ===================== -/

/-- A deep link inside an organic result. -/
structure DeepLink where
  text : Option String
  url : Option String
deriving DecidableEq

/-- The triple stored on an organic entry by a successful follow-up search. -/
structure FollowUpResults where
  title : String
  content : Option String
  url : String
deriving DecidableEq

/-- An organic search result. -/
structure OrganicResult where
  position : Nat
  title : Option String
  url : Option String
  snippet : Option String
  deepLinks : Option (List DeepLink)
  followUpSearched : Bool
  followUpResults : Option FollowUpResults
deriving DecidableEq

/-- A featured snippet. -/
structure FeaturedSnippet where
  content : Option String
  source : Option String
  url : Option String
deriving DecidableEq

/-- A video result. -/
structure VideoResult where
  title : Option String
  source : Option String
  duration : Option String
  url : Option String
deriving DecidableEq

/-- An image result. -/
structure ImageResult where
  src : Option String
  alt : Option String
  title : Option String
  url : Option String
  dimensions : Option String
deriving DecidableEq

/-- The aggregate result of one run.  Optional regions are absent (`none`)
when the category was not requested and present (possibly `some []`) when it
was. -/
structure SearchResults where
  query : String
  timestamp : String
  organicResults : Option (List OrganicResult)
  featuredSnippets : Option (List FeaturedSnippet)
  peopleAlsoAsk : Option (List String)
  relatedSearches : Option (List String)
  videos : Option (List VideoResult)
  images : Option (List ImageResult)
  pageText : Option String
deriving DecidableEq

/-- Which categories to extract (src/config/types.ts ExtractOptions). -/
structure ExtractOptions where
  organicResults : Bool
  featuredSnippets : Bool
  peopleAlsoAsk : Bool
  relatedSearches : Bool
  videos : Bool
  images : Bool

/- ===================== DOM oracle structures ===================== -/

/-- Raw DOM data for one `.b_deep li a` deep-link anchor. -/
structure DeepLinkNode where
  text : Option String
  href : Option String

/-- Raw DOM data for one `li.b_algo` organic-result node: the text content of
the descendants the mapping function queries, `none` when the descendant
element (or its text / attribute) is missing. -/
structure OrganicNode where
  titleText : Option String
  linkHref : Option String
  snippetText : Option String
  deepLinks : List DeepLinkNode

/-- Raw DOM data for one `.b_ans` featured-snippet node. -/
structure FeaturedNode where
  contentText : Option String
  sourceText : Option String
  linkHref : Option String

/-- Raw DOM data for one `.mc_vtvc` video node. -/
structure VideoNode where
  titleText : Option String
  sourceText : Option String
  durationText : Option String
  linkHref : Option String

/-- Raw DOM data for one `.imgpt` image node. -/
structure ImageNode where
  imgSrc : Option String
  imgAlt : Option String
  titleText : Option String
  linkHref : Option String
  dimensionsText : Option String

/-- A snapshot of the rendered page, as seen by the six extractors: for each
region, whether the bounded `waitForSelectorSafe` succeeded, whether the
`safeEvaluate` call succeeded (it catches in-page errors and returns null),
and the nodes the region selector matched. -/
structure PageSnapshot where
  organicWaitOk : Bool
  organicEvalOk : Bool
  organicNodes : List OrganicNode
  featuredWaitOk : Bool
  featuredEvalOk : Bool
  featuredNodes : List FeaturedNode
  paaWaitOk : Bool
  paaEvalOk : Bool
  paaNodes : List (Option String)
  relatedWaitOk : Bool
  relatedEvalOk : Bool
  relatedNodes : List (Option String)
  videosWaitOk : Bool
  videosEvalOk : Bool
  videoNodes : List VideoNode
  imagesWaitOk : Bool
  imagesEvalOk : Bool
  imageNodes : List ImageNode
  pageTextRaw : String

/- ===================== Region extractors ===================== -/

/-- OrganicResultsExtractor.extract: waits for `li.b_algo`; on timeout returns
`[]`; otherwise maps every matched node to an OrganicResult with a 1-based
position in encounter order, `followUpSearched: false`, and `deepLinks`
present only when at least one deep link was found.  An evaluation error
inside safeEvaluate yields null, turned into `[]` by `|| []`. -/
def OrganicResultsExtractor.extract (page : PageSnapshot) : List OrganicResult :=
  if !page.organicWaitOk then []
  else if !page.organicEvalOk then []
  else
    page.organicNodes.enum.map (fun p =>
      let index := p.1
      let el := p.2
      let deepLinks := el.deepLinks.map (fun link =>
        DeepLink.mk (jsOrNull (link.text.map String.trim)) (jsOrNull link.href))
      { position := index + 1
        title := jsOrNull (el.titleText.map String.trim)
        url := jsOrNull el.linkHref
        snippet := jsOrNull (el.snippetText.map String.trim)
        deepLinks := if deepLinks.length > 0 then some deepLinks else none
        followUpSearched := false
        followUpResults := none })

/-- FeaturedSnippetsExtractor.extract: waits for `.b_ans`; on timeout or
evaluation error returns `[]`; otherwise maps each node, truncating the text
content to 100 characters plus an ellipsis when longer than 100. -/
def FeaturedSnippetsExtractor.extract (page : PageSnapshot) : List FeaturedSnippet :=
  if !page.featuredWaitOk then []
  else if !page.featuredEvalOk then []
  else
    page.featuredNodes.map (fun el =>
      { content := (jsOrNull (el.contentText.map String.trim)).map truncate100
        source := jsOrNull (el.sourceText.map String.trim)
        url := jsOrNull el.linkHref })

/-- PeopleAlsoAskExtractor.extract: pushes each node's trimmed text content
when truthy (non-empty). -/
def PeopleAlsoAskExtractor.extract (page : PageSnapshot) : List String :=
  if !page.paaWaitOk then []
  else if !page.paaEvalOk then []
  else
    page.paaNodes.filterMap (fun t =>
      match t.map String.trim with
      | some q => if q = "" then none else some q
      | none => none)

/-- RelatedSearchesExtractor.extract: same shape as the questions extractor. -/
def RelatedSearchesExtractor.extract (page : PageSnapshot) : List String :=
  if !page.relatedWaitOk then []
  else if !page.relatedEvalOk then []
  else
    page.relatedNodes.filterMap (fun t =>
      match t.map String.trim with
      | some q => if q = "" then none else some q
      | none => none)

/-- VideoResultsExtractor.extract: maps each `.mc_vtvc` node to a flat
optional-field record. -/
def VideoResultsExtractor.extract (page : PageSnapshot) : List VideoResult :=
  if !page.videosWaitOk then []
  else if !page.videosEvalOk then []
  else
    page.videoNodes.map (fun el =>
      { title := jsOrNull (el.titleText.map String.trim)
        source := jsOrNull (el.sourceText.map String.trim)
        duration := jsOrNull (el.durationText.map String.trim)
        url := jsOrNull el.linkHref })

/-- ImageResultsExtractor.extract: maps each `.imgpt` node, reading the raw
src/alt attributes and the optional title / url / dimensions. -/
def ImageResultsExtractor.extract (page : PageSnapshot) : List ImageResult :=
  if !page.imagesWaitOk then []
  else if !page.imagesEvalOk then []
  else
    page.imageNodes.map (fun el =>
      { src := jsOrNull el.imgSrc
        alt := jsOrNull el.imgAlt
        title := jsOrNull (el.titleText.map String.trim)
        url := jsOrNull el.linkHref
        dimensions := jsOrNull (el.dimensionsText.map String.trim) })

/- ===================== Follow-up resolver ===================== -/

/-- Oracle for the page during a follow-up navigation: `goto` may throw
(navigation failure), `pageTitle` may throw, and `bodyText` is the result of
the safeEvaluate call reading the main/body text (none when the in-page
evaluation raised; the error is caught inside safeEvaluate). -/
structure FollowUpPage where
  goto : String → Except String Unit
  pageTitle : Except String String
  bodyText : Option String

/-- Outcome of one call to OrganicResultsExtractor.performFollowUpSearch:
the value returned to the caller, the (possibly updated) entry, and how many
navigations the call performed. -/
structure FollowUpOutcome where
  result : Option FollowUpResults
  entry : OrganicResult
  navCount : Nat
deriving DecidableEq

/-- OrganicResultsExtractor.performFollowUpSearch: returns null without
navigating when `result.url` is absent, `result.followUpSearched` is already
true, or `depth <= 0`.  Otherwise navigates; a thrown navigation or
title-read error is caught and returns null without touching the entry.  On
reaching the title, the body text is read through safeEvaluate (whose own
errors yield null), the flag is set, and the captured triple is stored with
the excerpt `content.substring(0, 1000) + '...'` when the text is truthy. -/
def OrganicResultsExtractor.performFollowUpSearch (page : FollowUpPage)
    (result : OrganicResult) (depth : Int) : FollowUpOutcome :=
  match result.url with
  | none => ⟨none, result, 0⟩
  | some url =>
    if result.followUpSearched then ⟨none, result, 0⟩
    else if depth ≤ 0 then ⟨none, result, 0⟩
    else
      match page.goto url with
      | .error _ => ⟨none, result, 1⟩
      | .ok _ =>
        match page.pageTitle with
        | .error _ => ⟨none, result, 1⟩
        | .ok t =>
          let stored : Option String :=
            match page.bodyText with
            | some c => if c = "" then none else some (String.mk (c.data.take 1000) ++ "...")
            | none => none
          let fr : FollowUpResults := ⟨t, stored, url⟩
          ⟨some fr,
           { result with followUpSearched := true, followUpResults := some fr },
           1⟩

/- ===================== Search driver ===================== -/

/-- Oracle for the search surface: whether `page.$(selector)` yields an
element for a given selector (a thrown lookup is caught and becomes null,
i.e. false here), and whether the wait for the results region succeeded
before its timeout. -/
structure DriverPage where
  hasElement : String → Bool
  resultsWaitOk : Bool

/-- The ordered fallback selector list SEARCH_INPUT_SELECTORS from
src/config/default-config.ts. -/
def SEARCH_INPUT_SELECTORS : List String :=
  ["input[name=\"q\"]",
   "#sb_form_q",
   "input[aria-label=\"Enter your search term\"]",
   "textarea#sb_form_q",
   "input[type=\"search\"]"]

/-- The loop body of SearchResultScraper.findSearchInput, instrumented with
the list of selectors actually attempted: tries each selector in order and
returns the first that yields an element, never attempting later ones. -/
def findSearchInputAux (has : String → Bool) : List String → Option String × List String
  | [] => (none, [])
  | s :: rest =>
    if has s then (some s, [s])
    else
      let r := findSearchInputAux has rest
      (r.1, s :: r.2)

/-- SearchResultScraper.findSearchInput: the selector that matched (standing
in for the returned element handle), or none when no selector matched. -/
def findSearchInput (page : DriverPage) (selectors : List String) : Option String :=
  (findSearchInputAux page.hasElement selectors).1

/-- SearchResultScraper.performSearch, from the point where navigation to the
search surface has completed (the automation engine is an external
collaborator): locate the input via the fallback list and throw
`Could not find search input` when none matches; the wait for the results
region has its timeout caught (`.catch(() => console.log(...))`), so the
function returns normally either way, reporting whether the region
appeared. -/
def performSearch (page : DriverPage) (selectors : List String) : Except String Bool :=
  match findSearchInput page selectors with
  | none => Except.error "Could not find search input"
  | some _ => Except.ok page.resultsWaitOk

/- ===================== Result aggregator ===================== -/

/-- SearchResultScraper.extractSearchResults: stamps query and timestamp,
runs exactly the configured extractors (an unconfigured category stays
absent), and always captures the page-text excerpt truncated by the
100-character rule. -/
def extractSearchResults (opts : ExtractOptions) (page : PageSnapshot)
    (query timestamp : String) : SearchResults :=
  { query := query
    timestamp := timestamp
    organicResults :=
      if opts.organicResults then some (OrganicResultsExtractor.extract page) else none
    featuredSnippets :=
      if opts.featuredSnippets then some (FeaturedSnippetsExtractor.extract page) else none
    peopleAlsoAsk :=
      if opts.peopleAlsoAsk then some (PeopleAlsoAskExtractor.extract page) else none
    relatedSearches :=
      if opts.relatedSearches then some (RelatedSearchesExtractor.extract page) else none
    videos :=
      if opts.videos then some (VideoResultsExtractor.extract page) else none
    images :=
      if opts.images then some (ImageResultsExtractor.extract page) else none
    pageText := some (truncate100 page.pageTextRaw) }

/- ===================== Multi-format serializer ===================== -/

/-- ResultFormatter.escapeHtml replacement source for the apostrophe. -/
def apostrophe : String := String.singleton (Char.ofNat 39)

/-- ResultFormatter.escapeHtml: the five reserved-character replacements in
source order, ampersand first. -/
def escapeHtml (str : String) : String :=
  ((((str.replace "&" "&amp;").replace "<" "&lt;").replace ">" "&gt;").replace
    "\"" "&quot;").replace apostrophe "&#039;"

/-- ResultFormatter.escapeCsvField: doubles embedded quote characters when
the field contains any. -/
def escapeCsvField (str : String) : String :=
  if containsSub str "\"" then str.replace "\"" "\"\"" else str

/- ------------------ readable text (formatAsText) ------------------ -/

/-- One organic-result block of the readable-text rendering. -/
def organicTextBlock (index : Nat) (result : OrganicResult) : String :=
  "Result #" ++ toString (index + 1) ++ ":\n" ++
  "- Title: " ++ jsOr result.title "N/A" ++ "\n" ++
  "- URL: " ++ jsOr result.url "N/A" ++ "\n" ++
  "- Snippet: " ++ jsOr result.snippet "N/A" ++ "\n" ++
  (match result.deepLinks with
   | some links =>
     if links.length > 0 then
       "- Deep Links:\n" ++ String.join (links.map (fun link =>
         "  * " ++ jsTemplate link.text ++ ": " ++ jsTemplate link.url ++ "\n"))
     else ""
   | none => "") ++
  "\n"

/-- The organic section of formatAsText: rendered only when the list is
present and non-empty. -/
def organicTextSection (o : Option (List OrganicResult)) : String :=
  match o with
  | some rs =>
    if rs.length > 0 then
      "=== ORGANIC SEARCH RESULTS (" ++ toString rs.length ++ ") ===\n\n" ++
      String.join (rs.enum.map (fun p => organicTextBlock p.1 p.2))
    else ""
  | none => ""

/-- The featured-snippets section of formatAsText. -/
def featuredTextSection (o : Option (List FeaturedSnippet)) : String :=
  match o with
  | some xs =>
    if xs.length > 0 then
      "=== FEATURED SNIPPETS (" ++ toString xs.length ++ ") ===\n\n" ++
      String.join (xs.enum.map (fun p =>
        "Snippet #" ++ toString (p.1 + 1) ++ ":\n" ++
        jsTemplate p.2.content ++ "\n" ++
        (if jsTruthy p.2.source then "Source: " ++ jsTemplate p.2.source ++ "\n" else "") ++
        "\n"))
    else ""
  | none => ""

/-- The People Also Ask section of formatAsText. -/
def paaTextSection (o : Option (List String)) : String :=
  match o with
  | some qs =>
    if qs.length > 0 then
      "=== PEOPLE ALSO ASK (" ++ toString qs.length ++ ") ===\n\n" ++
      String.join (qs.enum.map (fun p => toString (p.1 + 1) ++ ". " ++ p.2 ++ "\n")) ++
      "\n"
    else ""
  | none => ""

/-- The related-searches section of formatAsText. -/
def relatedTextSection (o : Option (List String)) : String :=
  match o with
  | some xs =>
    if xs.length > 0 then
      "=== RELATED SEARCHES (" ++ toString xs.length ++ ") ===\n\n" ++
      String.join (xs.enum.map (fun p => toString (p.1 + 1) ++ ". " ++ p.2 ++ "\n")) ++
      "\n"
    else ""
  | none => ""

/-- The video section of formatAsText. -/
def videosTextSection (o : Option (List VideoResult)) : String :=
  match o with
  | some vs =>
    if vs.length > 0 then
      "=== VIDEO RESULTS (" ++ toString vs.length ++ ") ===\n\n" ++
      String.join (vs.enum.map (fun p =>
        "Video #" ++ toString (p.1 + 1) ++ ":\n" ++
        "- Title: " ++ jsOr p.2.title "N/A" ++ "\n" ++
        "- Source: " ++ jsOr p.2.source "N/A" ++ "\n" ++
        (if jsTruthy p.2.duration then "- Duration: " ++ jsTemplate p.2.duration ++ "\n" else "") ++
        (if jsTruthy p.2.url then "- URL: " ++ jsTemplate p.2.url ++ "\n" else "") ++
        "\n"))
    else ""
  | none => ""

/-- The image section of formatAsText. -/
def imagesTextSection (o : Option (List ImageResult)) : String :=
  match o with
  | some xs =>
    if xs.length > 0 then
      "=== IMAGE RESULTS (" ++ toString xs.length ++ ") ===\n\n" ++
      String.join (xs.enum.map (fun p =>
        "Image #" ++ toString (p.1 + 1) ++ ":\n" ++
        "- Title: " ++ jsOr p.2.title "N/A" ++ "\n" ++
        "- Alt Text: " ++ jsOr p.2.alt "N/A" ++ "\n" ++
        (if jsTruthy p.2.dimensions then "- Dimensions: " ++ jsTemplate p.2.dimensions ++ "\n" else "") ++
        (if jsTruthy p.2.url then "- URL: " ++ jsTemplate p.2.url ++ "\n" else "") ++
        (if jsTruthy p.2.src then "- Source: " ++ jsTemplate p.2.src ++ "\n" else "") ++
        "\n"))
    else ""
  | none => ""

/-- ResultFormatter.formatAsText: the section-by-section readable rendering;
each section prints only when its list is present and non-empty. -/
def formatAsText (results : SearchResults) : String :=
  "SEARCH RESULTS FOR: \"" ++ results.query ++ "\"\n" ++
  "Extracted on: " ++ results.timestamp ++ "\n\n" ++
  organicTextSection results.organicResults ++
  featuredTextSection results.featuredSnippets ++
  paaTextSection results.peopleAlsoAsk ++
  relatedTextSection results.relatedSearches ++
  videosTextSection results.videos ++
  imagesTextSection results.images

/- ------------------ tabular (formatAsCsv) ------------------ -/

/-- Header row of the organic CSV block: five columns. -/
def organicCsvHeader : String := "Type,Position,Title,URL,Snippet"

/-- One organic CSV data row (without the trailing newline). -/
def organicCsvLine (result : OrganicResult) : String :=
  "Organic," ++ toString result.position ++ ",\"" ++
  escapeCsvField (jsOr result.title "") ++ "\",\"" ++
  escapeCsvField (jsOr result.url "") ++ "\",\"" ++
  escapeCsvField (jsOr result.snippet "") ++ "\""

/-- Header row of the featured CSV block: four columns. -/
def featuredCsvHeader : String := "Type,Content,Source,URL"

/-- One featured CSV data row: Type, then a 1-based index, then the three
quoted fields (without the trailing newline). -/
def featuredCsvLine (index : Nat) (snippet : FeaturedSnippet) : String :=
  "Featured," ++ toString (index + 1) ++ ",\"" ++
  escapeCsvField (jsOr snippet.content "") ++ "\",\"" ++
  escapeCsvField (jsOr snippet.source "") ++ "\",\"" ++
  escapeCsvField (jsOr snippet.url "") ++ "\""

/-- Header row of the video CSV block: five columns. -/
def videoCsvHeader : String := "Type,Title,Source,Duration,URL"

/-- One video CSV data row: Type, then a 1-based index, then the four quoted
fields (without the trailing newline). -/
def videoCsvLine (index : Nat) (video : VideoResult) : String :=
  "Video," ++ toString (index + 1) ++ ",\"" ++
  escapeCsvField (jsOr video.title "") ++ "\",\"" ++
  escapeCsvField (jsOr video.source "") ++ "\",\"" ++
  escapeCsvField (jsOr video.duration "") ++ "\",\"" ++
  escapeCsvField (jsOr video.url "") ++ "\""

/-- The organic block of formatAsCsv: header, rows, and a blank separator
line, emitted only when the list is present and non-empty. -/
def organicCsvSection (o : Option (List OrganicResult)) : String :=
  match o with
  | some rs =>
    if rs.length > 0 then
      organicCsvHeader ++ "\n" ++
      String.join (rs.map (fun r => organicCsvLine r ++ "\n")) ++ "\n"
    else ""
  | none => ""

/-- The featured block of formatAsCsv: header, rows, and a blank separator
line, emitted only when the list is present and non-empty. -/
def featuredCsvSection (o : Option (List FeaturedSnippet)) : String :=
  match o with
  | some xs =>
    if xs.length > 0 then
      featuredCsvHeader ++ "\n" ++
      String.join (xs.enum.map (fun p => featuredCsvLine p.1 p.2 ++ "\n")) ++ "\n"
    else ""
  | none => ""

/-- The video block of formatAsCsv: header and rows (no trailing separator),
emitted only when the list is present and non-empty. -/
def videoCsvSection (o : Option (List VideoResult)) : String :=
  match o with
  | some vs =>
    if vs.length > 0 then
      videoCsvHeader ++ "\n" ++
      String.join (vs.enum.map (fun p => videoCsvLine p.1 p.2 ++ "\n"))
    else ""
  | none => ""

/-- ResultFormatter.formatAsCsv: organic, featured and video blocks. -/
def formatAsCsv (results : SearchResults) : String :=
  organicCsvSection results.organicResults ++
  featuredCsvSection results.featuredSnippets ++
  videoCsvSection results.videos

/- ------------------ structured (formatAsJson) ------------------ -/

/-- JSON value tree, for modelling `JSON.stringify(results, null, 2)`. -/
inductive Json where
  | str : String → Json
  | num : Nat → Json
  | bool : Bool → Json
  | null : Json
  | arr : List Json → Json
  | obj : List (String × Json) → Json

/-- JSON string escaping as performed by JSON.stringify (backslash first). -/
def escapeJsonString (s : String) : String :=
  ((((s.replace "\\" "\\\\").replace "\"" "\\\"").replace "\n" "\\n").replace
    "\r" "\\r").replace "\t" "\\t"

/-- Indentation for the 2-space pretty printing of JSON.stringify. -/
def jsonSpaces (n : Nat) : String := String.mk (List.replicate n ' ')

mutual

/-- Render a JSON value at the given indentation, matching
`JSON.stringify(x, null, 2)`. -/
def Json.render (indent : Nat) : Json → String
  | .str s => "\"" ++ escapeJsonString s ++ "\""
  | .num n => toString n
  | .bool b => if b then "true" else "false"
  | .null => "null"
  | .arr [] => "[]"
  | .arr (x :: xs) =>
    "[\n" ++ Json.renderArray (indent + 2) (x :: xs) ++ "\n" ++ jsonSpaces indent ++ "]"
  | .obj [] => "\x7b\x7d"
  | .obj (f :: fs) =>
    "\x7b\n" ++ Json.renderObject (indent + 2) (f :: fs) ++ "\n" ++ jsonSpaces indent ++ "\x7d"

/-- Render the elements of a JSON array, one per line. -/
def Json.renderArray (indent : Nat) : List Json → String
  | [] => ""
  | [x] => jsonSpaces indent ++ Json.render indent x
  | x :: y :: xs =>
    jsonSpaces indent ++ Json.render indent x ++ ",\n" ++ Json.renderArray indent (y :: xs)

/-- Render the fields of a JSON object, one per line. -/
def Json.renderObject (indent : Nat) : List (String × Json) → String
  | [] => ""
  | [(k, v)] => jsonSpaces indent ++ "\"" ++ escapeJsonString k ++ "\": " ++ Json.render indent v
  | (k, v) :: f :: fs =>
    jsonSpaces indent ++ "\"" ++ escapeJsonString k ++ "\": " ++ Json.render indent v ++
    ",\n" ++ Json.renderObject indent (f :: fs)

end

/-- JSON encoding of a nullable string: null prints as null, undefined fields
are instead omitted by the object builders below. -/
def jsonOfOptStr : Option String → Json
  | some s => .str s
  | none => .null

/-- An optional object field: omitted entirely when undefined (JSON.stringify
drops undefined-valued properties). -/
def jsonOptField (name : String) : Option Json → List (String × Json)
  | some v => [(name, v)]
  | none => []

/-- JSON encoding of a deep link. -/
def DeepLink.toJson (l : DeepLink) : Json :=
  .obj [("text", jsonOfOptStr l.text), ("url", jsonOfOptStr l.url)]

/-- JSON encoding of a stored follow-up triple. -/
def FollowUpResults.toJson (f : FollowUpResults) : Json :=
  .obj [("title", .str f.title), ("content", jsonOfOptStr f.content), ("url", .str f.url)]

/-- JSON encoding of an organic result; `deepLinks` and `followUpResults`
are omitted when undefined, in the key order of the object's creation. -/
def OrganicResult.toJson (r : OrganicResult) : Json :=
  .obj ([("position", .num r.position),
         ("title", jsonOfOptStr r.title),
         ("url", jsonOfOptStr r.url),
         ("snippet", jsonOfOptStr r.snippet)] ++
        jsonOptField "deepLinks" (r.deepLinks.map (fun ls => .arr (ls.map DeepLink.toJson))) ++
        [("followUpSearched", .bool r.followUpSearched)] ++
        jsonOptField "followUpResults" (r.followUpResults.map FollowUpResults.toJson))

/-- JSON encoding of a featured snippet. -/
def FeaturedSnippet.toJson (s : FeaturedSnippet) : Json :=
  .obj [("content", jsonOfOptStr s.content),
        ("source", jsonOfOptStr s.source),
        ("url", jsonOfOptStr s.url)]

/-- JSON encoding of a video result. -/
def VideoResult.toJson (v : VideoResult) : Json :=
  .obj [("title", jsonOfOptStr v.title),
        ("source", jsonOfOptStr v.source),
        ("duration", jsonOfOptStr v.duration),
        ("url", jsonOfOptStr v.url)]

/-- JSON encoding of an image result. -/
def ImageResult.toJson (i : ImageResult) : Json :=
  .obj [("src", jsonOfOptStr i.src),
        ("alt", jsonOfOptStr i.alt),
        ("title", jsonOfOptStr i.title),
        ("url", jsonOfOptStr i.url),
        ("dimensions", jsonOfOptStr i.dimensions)]

/-- JSON encoding of the aggregate, with fields in assignment order and
undefined (unrequested) regions omitted. -/
def SearchResults.toJson (results : SearchResults) : Json :=
  .obj ([("query", .str results.query), ("timestamp", .str results.timestamp)] ++
        jsonOptField "organicResults"
          (results.organicResults.map (fun xs => .arr (xs.map OrganicResult.toJson))) ++
        jsonOptField "featuredSnippets"
          (results.featuredSnippets.map (fun xs => .arr (xs.map FeaturedSnippet.toJson))) ++
        jsonOptField "peopleAlsoAsk"
          (results.peopleAlsoAsk.map (fun xs => .arr (xs.map Json.str))) ++
        jsonOptField "relatedSearches"
          (results.relatedSearches.map (fun xs => .arr (xs.map Json.str))) ++
        jsonOptField "videos"
          (results.videos.map (fun xs => .arr (xs.map VideoResult.toJson))) ++
        jsonOptField "images"
          (results.images.map (fun xs => .arr (xs.map ImageResult.toJson))) ++
        jsonOptField "pageText" (results.pageText.map Json.str))

/-- ResultFormatter.formatAsJson: `JSON.stringify(results, null, 2)`. -/
def formatAsJson (results : SearchResults) : String :=
  Json.render 0 results.toJson

/- ------------------ styled document (formatAsHtml) ------------------ -/

/-- Static head of the HTML document, up to the title interpolation of the query. -/
def htmlHeadA : String :=
  "<!DOCTYPE html>\n<html>\n<head>\n  <meta charset=\"UTF-8\">\n  <meta name=\"viewport\" content=\"width=device-width, initial-scale=1.0\">\n  <title>Search Results for \""

/-- Static middle of the HTML head: style block through the h1 opening. -/
def htmlHeadB : String :=
  "\"</title>\n  <style>\n    body \x7b\n      font-family: Arial, sans-serif;\n      line-height: 1.6;\n      margin: 0;\n      padding: 20px;\n      color: #333;\n    \x7d\n    h1 \x7b\n      color: #1a73e8;\n      border-bottom: 1px solid #eee;\n      padding-bottom: 10px;\n    \x7d\n    h2 \x7b\n      color: #1a73e8;\n      margin-top: 30px;\n    \x7d\n    .result \x7b\n      margin-bottom: 20px;\n      padding: 15px;\n      border: 1px solid #eee;\n      border-radius: 5px;\n    \x7d\n    .result:hover \x7b\n      box-shadow: 0 2px 5px rgba(0,0,0,0.1);\n    \x7d\n    .title \x7b\n      color: #1a0dab;\n      font-size: 18px;\n      margin: 0 0 5px 0;\n    \x7d\n    .url \x7b\n      color: #006621;\n      font-size: 14px;\n      margin: 0 0 8px 0;\n    \x7d\n    .snippet \x7b\n      color: #545454;\n      font-size: 14px;\n    \x7d\n    .deep-links \x7b\n      margin-top: 10px;\n      padding-left: 20px;\n    \x7d\n    .deep-link \x7b\n      font-size: 13px;\n      color: #1a0dab;\n    \x7d\n    .featured \x7b\n      background-color: #f8f9fa;\n      padding: 15px;\n      border-left: 4px solid #1a73e8;\n      margin-bottom: 20px;\n    \x7d\n    .video \x7b\n      display: flex;\n      margin-bottom: 15px;\n      padding: 10px;\n      border: 1px solid #eee;\n      border-radius: 5px;\n    \x7d\n    .video-info \x7b\n      margin-left: 15px;\n    \x7d\n    .video-thumbnail \x7b\n      width: 120px;\n      height: 90px;\n      background-color: #eee;\n      display: flex;\n      align-items: center;\n      justify-content: center;\n      border-radius: 3px;\n    \x7d\n    .image-grid \x7b\n      display: grid;\n      grid-template-columns: repeat(auto-fill, minmax(200px, 1fr));\n      grid-gap: 15px;\n    \x7d\n    .image-item \x7b\n      border: 1px solid #eee;\n      border-radius: 5px;\n      padding: 10px;\n      transition: transform 0.2s;\n    \x7d\n    .image-item:hover \x7b\n      transform: scale(1.03);\n      box-shadow: 0 2px 5px rgba(0,0,0,0.1);\n    \x7d\n    .image-placeholder \x7b\n      width: 100%;\n      height: 150px;\n      background-color: #f8f9fa;\n      display: flex;\n      align-items: center;\n      justify-content: center;\n      color: #70757a;\n      margin-bottom: 10px;\n    \x7d\n    .meta \x7b\n      color: #70757a;\n      font-size: 13px;\n    \x7d\n    .questions, .related \x7b\n      list-style-type: none;\n      padding-left: 0;\n    \x7d\n    .questions li, .related li \x7b\n      padding: 8px 0;\n      border-bottom: 1px solid #eee;\n    \x7d\n  </style>\n</head>\n<body>\n  <h1>Search Results for \""

/-- Static fragment between the escaped query and the timestamp. -/
def htmlHeadC : String :=
  "\"</h1>\n  <p>Extracted on: "

/-- Static fragment closing the extraction-time paragraph. -/
def htmlHeadD : String :=
  "</p>\n"

/-- The organic section of formatAsHtml. -/
def organicHtmlSection (o : Option (List OrganicResult)) : String :=
  match o with
  | some rs =>
    if rs.length > 0 then
      "<h2>Organic Search Results (" ++ toString rs.length ++ ")</h2>" ++
      String.join (rs.map (fun result =>
        "<div class=\"result\">\n          <div class=\"title\">" ++
        escapeHtml (jsOr result.title "N/A") ++
        "</div>\n          <div class=\"url\">" ++
        escapeHtml (jsOr result.url "N/A") ++
        "</div>\n          <div class=\"snippet\">" ++
        escapeHtml (jsOr result.snippet "N/A") ++ "</div>" ++
        (match result.deepLinks with
         | some links =>
           if links.length > 0 then
             "<div class=\"deep-links\">" ++
             String.join (links.map (fun link =>
               "<div class=\"deep-link\">\n              <a href=\"" ++
               escapeHtml (jsOr link.url "#") ++ "\">" ++
               escapeHtml (jsOr link.text "Link") ++
               "</a>\n            </div>")) ++
             "</div>"
           else ""
         | none => "") ++
        "</div>"))
    else ""
  | none => ""

/-- The featured-snippets section of formatAsHtml. -/
def featuredHtmlSection (o : Option (List FeaturedSnippet)) : String :=
  match o with
  | some xs =>
    if xs.length > 0 then
      "<h2>Featured Snippets (" ++ toString xs.length ++ ")</h2>" ++
      String.join (xs.map (fun snippet =>
        "<div class=\"featured\">\n          <div>" ++
        escapeHtml (jsOr snippet.content "N/A") ++
        "</div>\n          " ++
        (if jsTruthy snippet.source then
           "<div class=\"meta\">Source: " ++ escapeHtml (jsTemplate snippet.source) ++ "</div>"
         else "") ++
        "\n        </div>"))
    else ""
  | none => ""

/-- The People Also Ask section of formatAsHtml. -/
def paaHtmlSection (o : Option (List String)) : String :=
  match o with
  | some qs =>
    if qs.length > 0 then
      "<h2>People Also Ask (" ++ toString qs.length ++ ")</h2>\n      <ul class=\"questions\">" ++
      String.join (qs.map (fun question => "<li>" ++ escapeHtml question ++ "</li>")) ++
      "</ul>"
    else ""
  | none => ""

/-- The related-searches section of formatAsHtml. -/
def relatedHtmlSection (o : Option (List String)) : String :=
  match o with
  | some xs =>
    if xs.length > 0 then
      "<h2>Related Searches (" ++ toString xs.length ++ ")</h2>\n      <ul class=\"related\">" ++
      String.join (xs.map (fun search => "<li>" ++ escapeHtml search ++ "</li>")) ++
      "</ul>"
    else ""
  | none => ""

/-- The video section of formatAsHtml. -/
def videosHtmlSection (o : Option (List VideoResult)) : String :=
  match o with
  | some vs =>
    if vs.length > 0 then
      "<h2>Video Results (" ++ toString vs.length ++ ")</h2>" ++
      String.join (vs.map (fun video =>
        "<div class=\"video\">\n          <div class=\"video-thumbnail\">▶</div>\n          <div class=\"video-info\">\n            <div class=\"title\">" ++
        escapeHtml (jsOr video.title "N/A") ++
        "</div>\n            <div class=\"meta\">\n              " ++
        (if jsTruthy video.source then escapeHtml (jsTemplate video.source) else "") ++
        "\n              " ++
        (if jsTruthy video.duration then " • " ++ escapeHtml (jsTemplate video.duration) else "") ++
        "\n            </div>\n          </div>\n        </div>"))
    else ""
  | none => ""

/-- ResultFormatter.formatAsHtml: head template (query interpolated raw in
the title, escaped in the h1), the five sections (images are not rendered in
the HTML encoding), and the closing tags. -/
def formatAsHtml (results : SearchResults) : String :=
  htmlHeadA ++ results.query ++ htmlHeadB ++ escapeHtml results.query ++
  htmlHeadC ++ results.timestamp ++ htmlHeadD ++
  organicHtmlSection results.organicResults ++
  featuredHtmlSection results.featuredSnippets ++
  paaHtmlSection results.peopleAlsoAsk ++
  relatedHtmlSection results.relatedSearches ++
  videosHtmlSection results.videos ++
  "</body>\n</html>"

/- ------------------ dispatch and persistence ------------------ -/

/-- The OutputFormat string enum from src/config/types.ts. -/
abbrev OutputFormat := String

/-- OutputFormat.JSON = 'json'. -/
def OutputFormat.JSON : OutputFormat := "json"

/-- OutputFormat.TEXT = 'text'. -/
def OutputFormat.TEXT : OutputFormat := "text"

/-- OutputFormat.CSV = 'csv'. -/
def OutputFormat.CSV : OutputFormat := "csv"

/-- OutputFormat.HTML = 'html'. -/
def OutputFormat.HTML : OutputFormat := "html"

/-- ResultFormatter.format: the switch over the four encodings; any other
value falls to the default branch, which throws an error naming the
requested format. -/
def ResultFormatter.format (results : SearchResults) (fmt : OutputFormat) :
    Except String String :=
  if fmt = OutputFormat.JSON then Except.ok (formatAsJson results)
  else if fmt = OutputFormat.TEXT then Except.ok (formatAsText results)
  else if fmt = OutputFormat.CSV then Except.ok (formatAsCsv results)
  else if fmt = OutputFormat.HTML then Except.ok (formatAsHtml results)
  else Except.error ("Unsupported output format: " ++ fmt)

/-- ResultSaver.getFileExtension: the extension switch, defaulting to txt. -/
def ResultSaver.getFileExtension (fmt : OutputFormat) : String :=
  if fmt = OutputFormat.JSON then "json"
  else if fmt = OutputFormat.TEXT then "txt"
  else if fmt = OutputFormat.CSV then "csv"
  else if fmt = OutputFormat.HTML then "html"
  else "txt"

/-- What one ResultSaver.saveInFormat call did: the file it wrote (path and
contents), if any, and whether it logged a save error.  The body is wrapped
in try/catch, so the call itself never throws: a formatter error is caught,
logged, and no file is written for that format. -/
structure SaveOutcome where
  written : Option (String × String)
  errorLogged : Bool
deriving DecidableEq

/-- ResultSaver.saveInFormat: format first, then write
`outputDir/search-results.<ext>`; the formatter throw happens before the
write, and the surrounding catch turns it into a logged error. -/
def ResultSaver.saveInFormat (results : SearchResults) (outputDir : String)
    (fmt : OutputFormat) : SaveOutcome :=
  match ResultFormatter.format results fmt with
  | Except.ok formatted =>
    ⟨some (outputDir ++ "/search-results." ++ ResultSaver.getFileExtension fmt, formatted), false⟩
  | Except.error _ => ⟨none, true⟩

/-- The files written and errors logged by one ResultSaver.saveResults run. -/
structure SaveState where
  files : List (String × String)
  errors : List OutputFormat
deriving DecidableEq

/-- ResultSaver.saveResults: saves each requested format in order; each
iteration is independent because saveInFormat swallows its own errors, so
the loop never aborts early. -/
def ResultSaver.saveResults (results : SearchResults) (outputDir : String)
    (formats : List OutputFormat) : SaveState :=
  ⟨formats.filterMap (fun f => (ResultSaver.saveInFormat results outputDir f).written),
   formats.filter (fun f => (ResultSaver.saveInFormat results outputDir f).errorLogged)⟩

/- ===================== CSV field counting ===================== -/

/-- Split a character list at every comma; the resulting pieces are the
comma-separated fields of the line. -/
def splitFields : List Char → List (List Char)
  | [] => [[]]
  | c :: cs =>
    match splitFields cs with
    | [] => [[]]
    | f :: rest => if c = ',' then [] :: f :: rest else (c :: f) :: rest

/-- The comma-separated fields of a CSV line. -/
def csvFields (s : String) : List String :=
  (splitFields s.data).map String.mk

/-- Splitting at commas yields one more field than there are commas. -/
theorem splitFields_length (l : List Char) :
    (splitFields l).length = l.count ',' + 1 := by
  induction l with
  | nil => rfl
  | cons c cs ih =>
    unfold splitFields
    cases h : splitFields cs with
    | nil => rw [h] at ih; simp at ih
    | cons f rest =>
      rw [h] at ih
      by_cases hc : c = ','
      · subst hc
        simp [List.count_cons, ih]
      · have hne : (',' : Char) ≠ c := fun hw => hc hw.symm
        simp only [List.length_cons] at ih
        simp [hc, List.count_cons, hne]
        omega

/- ===================== Claim theorems ===================== -/

/-- Claim C9: the 100-character-plus-ellipsis truncation is idempotent —
applied to a string that is already its own output (100 characters plus the
ellipsis marker) it returns the same string, with no double ellipsis. -/
theorem truncate100_idempotent (s : String) :
    truncate100 (truncate100 s) = truncate100 s := by
  unfold truncate100
  by_cases h : 100 < s.length
  · rw [if_pos h]
    have htake : (s.data.take 100).length = 100 := by
      rw [List.length_take]
      exact Nat.min_eq_left (Nat.le_of_lt h)
    have hlen : (String.mk (s.data.take 100) ++ "…").length = 101 := by
      rw [String.length_append, String.length_mk, htake]
      rfl
    rw [if_pos (by rw [hlen]; norm_num)]
    have hdata : (String.mk (s.data.take 100) ++ "…").data = s.data.take 100 ++ ['…'] := by
      rw [String.data_append]
    rw [hdata]
    have hback : (s.data.take 100 ++ ['…']).take 100 = s.data.take 100 := by
      rw [List.take_append_of_le_length (by rw [htake])]
      exact List.take_of_length_le (by rw [htake])
    rw [hback]
  · rw [if_neg h, if_neg h]

/-- Claim C5: featured-snippet content longer than 100 characters is stored
as exactly the first 100 characters followed by a single ellipsis marker
(a prefix operation, 101 glyph units total), content of at most 100
characters is stored unchanged, and the page-text excerpt of the aggregate
uses the same 100-character rule. -/
theorem featured_truncation_100_chars :
    (∀ t : String, 100 < t.length →
       truncate100 t = String.mk (t.data.take 100) ++ "…" ∧ (truncate100 t).length = 101)
    ∧ (∀ t : String, t.length ≤ 100 → truncate100 t = t)
    ∧ (∀ (opts : ExtractOptions) (page : PageSnapshot) (q ts : String),
         (extractSearchResults opts page q ts).pageText = some (truncate100 page.pageTextRaw))
    ∧ (∀ (page : PageSnapshot) (node : FeaturedNode),
         node ∈ page.featuredNodes → page.featuredWaitOk = true →
         page.featuredEvalOk = true →
         (⟨(jsOrNull (node.contentText.map String.trim)).map truncate100,
           jsOrNull (node.sourceText.map String.trim),
           jsOrNull node.linkHref⟩ : FeaturedSnippet)
           ∈ FeaturedSnippetsExtractor.extract page) := by
  refine ⟨?_, ?_, ?_, ?_⟩
  · intro t h
    have htake : (t.data.take 100).length = 100 := by
      rw [List.length_take]
      exact Nat.min_eq_left (Nat.le_of_lt h)
    refine ⟨by unfold truncate100; rw [if_pos h], ?_⟩
    unfold truncate100
    rw [if_pos h, String.length_append, String.length_mk, htake]
    rfl
  · intro t h
    unfold truncate100
    rw [if_neg (by omega)]
  · intro opts page q ts
    rfl
  · intro page node hmem hw he
    unfold FeaturedSnippetsExtractor.extract
    simp only [hw, he, Bool.not_true, Bool.false_eq_true, if_false]
    exact List.mem_map.mpr ⟨node, hmem, rfl⟩

/-- Witness for C5: a concrete 150-character content is truncated to length
101 (100 characters plus the one-character ellipsis marker). -/
theorem featured_truncation_100_chars_witness :
    100 < (String.mk (List.replicate 150 'a')).length ∧
    (truncate100 (String.mk (List.replicate 150 'a'))).length = 101 :=
  ⟨by decide,
   (featured_truncation_100_chars.1 (String.mk (List.replicate 150 'a')) (by decide)).2⟩

/-- The default extraction options (DEFAULT_CONFIG.extractOptions). -/
def scenarioOpts : ExtractOptions :=
  ⟨true, true, true, true, true, false⟩

/-- A snapshot in which the organic region is present (the wait succeeded)
but the selector matched zero nodes, and every other region timed out. -/
def emptyRegionSnapshot : PageSnapshot :=
  { organicWaitOk := true, organicEvalOk := true, organicNodes := []
    featuredWaitOk := false, featuredEvalOk := true, featuredNodes := []
    paaWaitOk := false, paaEvalOk := true, paaNodes := []
    relatedWaitOk := false, relatedEvalOk := true, relatedNodes := []
    videosWaitOk := false, videosEvalOk := true, videoNodes := []
    imagesWaitOk := false, imagesEvalOk := true, imageNodes := []
    pageTextRaw := "" }

/-- The aggregate of the C1 scenario run: query `puppeteer tutorial`, organic
region present with zero matching nodes. -/
def c1Aggregate : SearchResults :=
  extractSearchResults scenarioOpts emptyRegionSnapshot "puppeteer tutorial"
    "2024-01-01T00:00:00.000Z"

/-- Claim C1 counterexample: in the scenario of the claim (organic region
present, zero matching nodes) the aggregate does carry `organicResults = []`,
but the readable-text rendering does not print the header
`=== ORGANIC SEARCH RESULTS (0) ===`: formatAsText renders the organic
section only when the list is non-empty. -/
theorem organic_empty_header_counterexample :
    c1Aggregate.organicResults = some [] ∧
    containsSub (formatAsText c1Aggregate) "=== ORGANIC SEARCH RESULTS (0) ===" = false ∧
    formatAsText c1Aggregate =
      "SEARCH RESULTS FOR: \"puppeteer tutorial\"\nExtracted on: 2024-01-01T00:00:00.000Z\n\n" := by
  refine ⟨rfl, by decide, rfl⟩

/-- Claim C1 (amended): for a run whose organic region is present but
contains zero matching nodes, the aggregate's organicResults field is the
empty list (present, not absent, and not an error); the readable-text
rendering, however, prints no organic header at all for an empty list — an
aggregate with `organicResults = []` renders exactly like one with the field
absent, and the `=== ORGANIC SEARCH RESULTS (n) ===` header appears only
when n is positive. -/
theorem organic_empty_renders_no_section (opts : ExtractOptions)
    (page : PageSnapshot) (q ts : String) (hopt : opts.organicResults = true)
    (hwait : page.organicWaitOk = true) (hnodes : page.organicNodes = []) :
    (extractSearchResults opts page q ts).organicResults = some [] ∧
    (∀ agg : SearchResults, agg.organicResults = some [] →
      formatAsText agg = formatAsText { agg with organicResults := none }) := by
  constructor
  · have hex : OrganicResultsExtractor.extract page = [] := by
      unfold OrganicResultsExtractor.extract
      rw [hwait, hnodes]
      cases page.organicEvalOk <;> simp
    simp [extractSearchResults, hopt, hex]
  · intro agg h
    simp [formatAsText, organicTextSection, h]

/-- Witness for the amended C1 at the concrete scenario run. -/
theorem organic_empty_renders_no_section_witness :
    (extractSearchResults scenarioOpts emptyRegionSnapshot "puppeteer tutorial"
      "2024-01-01T00:00:00.000Z").organicResults = some [] :=
  (organic_empty_renders_no_section scenarioOpts emptyRegionSnapshot
    "puppeteer tutorial" "2024-01-01T00:00:00.000Z" rfl rfl rfl).1

/-- An aggregate whose organic, featured and video category keys are all
present with zero entries. -/
def c2Aggregate : SearchResults :=
  ⟨"puppeteer tutorial", "2024-01-01T00:00:00.000Z",
   some [], some [], none, none, some [], none, none⟩

/-- Claim C2 counterexample: with the organic and featured category keys
present but holding zero entries, the tabular encoding emits nothing at all —
in particular the featured header row `Type,Content,Source,URL` and the
organic header row do not print, contrary to the claimed exception for those
two categories. -/
theorem csv_empty_featured_header_counterexample :
    c2Aggregate.organicResults = some [] ∧
    c2Aggregate.featuredSnippets = some [] ∧
    formatAsCsv c2Aggregate = "" ∧
    containsSub (formatAsCsv c2Aggregate) featuredCsvHeader = false ∧
    containsSub (formatAsCsv c2Aggregate) organicCsvHeader = false := by
  refine ⟨rfl, rfl, rfl, by decide, by decide⟩

/-- Claim C2 (amended): in the tabular encoding, every category with zero
entries emits nothing — no data rows and no header row — whether the
category key is present-but-empty or absent; organic and featured are not
exceptions, their headers print only when at least one row exists.  An
aggregate whose three tabular categories are all empty or absent serializes
to the empty string. -/
theorem csv_empty_category_emits_nothing (agg : SearchResults) :
    (agg.organicResults = some [] →
      formatAsCsv agg = formatAsCsv { agg with organicResults := none }) ∧
    (agg.featuredSnippets = some [] →
      formatAsCsv agg = formatAsCsv { agg with featuredSnippets := none }) ∧
    (agg.videos = some [] →
      formatAsCsv agg = formatAsCsv { agg with videos := none }) ∧
    ((agg.organicResults = some [] ∨ agg.organicResults = none) →
     (agg.featuredSnippets = some [] ∨ agg.featuredSnippets = none) →
     (agg.videos = some [] ∨ agg.videos = none) →
     formatAsCsv agg = "") := by
  refine ⟨?_, ?_, ?_, ?_⟩
  · intro h
    simp [formatAsCsv, organicCsvSection, h]
  · intro h
    simp [formatAsCsv, featuredCsvSection, h]
  · intro h
    simp [formatAsCsv, videoCsvSection, h]
  · intro h1 h2 h3
    have e1 : organicCsvSection agg.organicResults = "" := by
      cases h1 with
      | inl h => simp [organicCsvSection, h]
      | inr h => simp [organicCsvSection, h]
    have e2 : featuredCsvSection agg.featuredSnippets = "" := by
      cases h2 with
      | inl h => simp [featuredCsvSection, h]
      | inr h => simp [featuredCsvSection, h]
    have e3 : videoCsvSection agg.videos = "" := by
      cases h3 with
      | inl h => simp [videoCsvSection, h]
      | inr h => simp [videoCsvSection, h]
    simp [formatAsCsv, e1, e2, e3]

/-- Witness for the amended C2 at the concrete empty aggregate. -/
theorem csv_empty_category_emits_nothing_witness :
    formatAsCsv c2Aggregate = "" :=
  (csv_empty_category_emits_nothing c2Aggregate).2.2.2
    (Or.inl rfl) (Or.inl rfl) (Or.inl rfl)

/-- A minimal aggregate for exercising the serializer dispatch. -/
def c3Results : SearchResults :=
  ⟨"test query", "2024-01-01T00:00:00.000Z", none, none, none, none, none, none, none⟩

/-- Claim C3 counterexample: requesting the unsupported format `xml` makes
the formatter throw an error naming the format and writes no file for it,
but the failure is not fatal — saveInFormat catches the throw and logs it,
and a save run over `[xml, json]` still writes the JSON file and finishes
normally, so the run is not aborted. -/
theorem unsupported_format_not_fatal_counterexample :
    ResultFormatter.format c3Results "xml" =
      Except.error ("Unsupported output format: " ++ "xml") ∧
    (ResultSaver.saveInFormat c3Results "./out" "xml").written = none ∧
    (ResultSaver.saveInFormat c3Results "./out" "xml").errorLogged = true ∧
    (ResultSaver.saveResults c3Results "./out" ["xml", "json"]).files.length = 1 ∧
    (ResultSaver.saveResults c3Results "./out" ["xml", "json"]).errors = ["xml"] := by
  refine ⟨rfl, rfl, rfl, rfl, rfl⟩

/-- Claim C3 (amended): for every aggregate and every format value outside
the four supported encodings, the serializer fails with an error naming the
requested format and no partial output file is written for that format; the
failure is, however, caught by the saver (logged, run continues) rather than
aborting the run — saving proceeds with the remaining formats unchanged. -/
theorem unsupported_format_error_and_no_write (results : SearchResults)
    (outputDir : String) (fmt : OutputFormat) (h1 : fmt ≠ OutputFormat.JSON)
    (h2 : fmt ≠ OutputFormat.TEXT) (h3 : fmt ≠ OutputFormat.CSV)
    (h4 : fmt ≠ OutputFormat.HTML) :
    ResultFormatter.format results fmt =
      Except.error ("Unsupported output format: " ++ fmt) ∧
    (ResultSaver.saveInFormat results outputDir fmt).written = none ∧
    (ResultSaver.saveInFormat results outputDir fmt).errorLogged = true ∧
    (∀ rest, (ResultSaver.saveResults results outputDir (fmt :: rest)).files =
      (ResultSaver.saveResults results outputDir rest).files) := by
  have hf : ResultFormatter.format results fmt =
      Except.error ("Unsupported output format: " ++ fmt) := by
    simp [ResultFormatter.format, h1, h2, h3, h4]
  refine ⟨hf, ?_, ?_, ?_⟩
  · simp [ResultSaver.saveInFormat, hf]
  · simp [ResultSaver.saveInFormat, hf]
  · intro rest
    simp [ResultSaver.saveResults, ResultSaver.saveInFormat, hf]

/-- Witness for the amended C3 at format `xml`. -/
theorem unsupported_format_error_and_no_write_witness :
    ResultFormatter.format c3Results "xml" =
      Except.error ("Unsupported output format: " ++ "xml") ∧
    (ResultSaver.saveInFormat c3Results "./output" "xml").written = none :=
  ⟨(unsupported_format_error_and_no_write c3Results "./output" "xml"
      (by decide) (by decide) (by decide) (by decide)).1,
   (unsupported_format_error_and_no_write c3Results "./output" "xml"
      (by decide) (by decide) (by decide) (by decide)).2.1⟩

/-- The fallback lookup returns nothing exactly when no selector in the list
yields an element. -/
theorem findAux_none_iff (has : String → Bool) (l : List String) :
    (findSearchInputAux has l).1 = none ↔ ∀ s ∈ l, has s = false := by
  induction l with
  | nil => simp [findSearchInputAux]
  | cons a rest ih =>
    unfold findSearchInputAux
    by_cases h : has a = true
    · simp [h]
    · have hf : has a = false := by
        cases hv : has a
        · rfl
        · exact absurd hv h
      simp [hf, ih]

/-- When the fallback lookup succeeds, the matched selector yields an
element, every selector attempted before it fails, and the attempted list is
an initial segment of the full list: selectors after the first success are
never attempted. -/
theorem findAux_some (has : String → Bool) :
    ∀ (l : List String) (s : String) (att : List String),
    findSearchInputAux has l = (some s, att) →
    has s = true ∧
    ∃ pre suffix, att = pre ++ [s] ∧ (∀ x ∈ pre, has x = false) ∧ l = att ++ suffix := by
  intro l
  induction l with
  | nil =>
    intro s att h
    simp [findSearchInputAux] at h
  | cons a rest ih =>
    intro s att h
    unfold findSearchInputAux at h
    by_cases ha : has a = true
    · rw [if_pos ha] at h
      rw [Prod.mk.injEq] at h
      obtain ⟨h1, h2⟩ := h
      obtain rfl : a = s := Option.some.inj h1
      exact ⟨ha, [], rest, h2.symm, by simp, by rw [← h2]; rfl⟩
    · rw [if_neg ha] at h
      rw [Prod.mk.injEq] at h
      obtain ⟨h1, h2⟩ := h
      have hx : findSearchInputAux has rest = (some s, (findSearchInputAux has rest).2) := by
        rw [← h1]
      obtain ⟨hs, pre, suffix, hpre, hall, hrest⟩ := ih s _ hx
      have haf : has a = false := by
        cases hv : has a
        · rfl
        · exact absurd hv ha
      refine ⟨hs, a :: pre, suffix, ?_, ?_, ?_⟩
      · rw [← h2, hpre]
        rfl
      · intro x hx
        rcases List.mem_cons.mp hx with hxa | hxp
        · rw [hxa]; exact haf
        · exact hall x hxp
      · rw [← h2, List.cons_append]
        rw [← hrest]

/-- Claim C4: the search driver tries its ordered selector list and succeeds
on the first selector that yields a control without attempting later ones;
it aborts with the fatal `Could not find search input` error exactly when no
selector yields a control; and a timed-out wait for the results region is
not fatal — with an input found, performSearch returns normally whatever the
wait outcome. -/
theorem search_input_first_match_and_fatality (page : DriverPage)
    (selectors : List String) :
    (performSearch page selectors = Except.error "Could not find search input" ↔
      ∀ s ∈ selectors, page.hasElement s = false) ∧
    (∀ s att, findSearchInputAux page.hasElement selectors = (some s, att) →
      page.hasElement s = true ∧
      (∃ pre, att = pre ++ [s] ∧ ∀ x ∈ pre, page.hasElement x = false) ∧
      (∃ suffix, selectors = att ++ suffix)) ∧
    ((∃ s, s ∈ selectors ∧ page.hasElement s = true) →
      performSearch page selectors = Except.ok page.resultsWaitOk) := by
  refine ⟨?_, ?_, ?_⟩
  · unfold performSearch findSearchInput
    cases hf : (findSearchInputAux page.hasElement selectors).1 with
    | none =>
      exact iff_of_true rfl ((findAux_none_iff page.hasElement selectors).mp hf)
    | some s =>
      refine iff_of_false (by simp) (fun hall => ?_)
      have h0 := (findAux_none_iff page.hasElement selectors).mpr hall
      rw [hf] at h0
      exact Option.noConfusion h0
  · intro s att h
    obtain ⟨hs, pre, suffix, hpre, hall, hl⟩ := findAux_some page.hasElement selectors s att h
    exact ⟨hs, ⟨pre, hpre, hall⟩, ⟨suffix, hl⟩⟩
  · rintro ⟨s, hmem, hs⟩
    unfold performSearch findSearchInput
    cases hf : (findSearchInputAux page.hasElement selectors).1 with
    | none =>
      have := (findAux_none_iff page.hasElement selectors).mp hf s hmem
      rw [this] at hs
      exact absurd hs (by simp)
    | some t => rfl

/-- A page on which only the fifth fallback selector yields an element and
the results-region wait times out. -/
def fifthOnlyPage : DriverPage :=
  ⟨fun sel => sel == "input[type=\"search\"]", false⟩

/-- Witness for C4: with the first four selectors absent and the fifth
present, the driver succeeds despite the results wait timing out, and the
attempted list is exactly the five selectors with the fifth matching. -/
theorem search_input_first_match_and_fatality_witness :
    performSearch fifthOnlyPage SEARCH_INPUT_SELECTORS = Except.ok false ∧
    findSearchInputAux fifthOnlyPage.hasElement SEARCH_INPUT_SELECTORS =
      (some "input[type=\"search\"]", SEARCH_INPUT_SELECTORS) := by
  constructor
  · exact (search_input_first_match_and_fatality fifthOnlyPage SEARCH_INPUT_SELECTORS).2.2
      ⟨"input[type=\"search\"]", by decide, by decide⟩
  · rfl

/-- An organic entry with a target URL, not yet follow-up-searched. -/
def cEntry : OrganicResult :=
  ⟨1, some "Example", some "http://example.com", none, none, false, none⟩

/-- A follow-up page whose navigation throws. -/
def cPageFail : FollowUpPage :=
  ⟨fun _ => Except.error "net::ERR_CONNECTION_REFUSED", Except.ok "T", some "body text"⟩

/-- A follow-up page on which everything succeeds. -/
def cPageOk : FollowUpPage :=
  ⟨fun _ => Except.ok (), Except.ok "Example Domain", some "body text"⟩

/-- Claim C6 counterexample: when the first call's navigation throws, the
entry's flag stays false, so a second call on the same entry navigates
again — the two calls together perform two navigations and the second call
returns a non-null result, so the second call is not a no-op returning
null. -/
theorem follow_up_retry_counterexample :
    (OrganicResultsExtractor.performFollowUpSearch cPageFail cEntry 1).navCount = 1 ∧
    (OrganicResultsExtractor.performFollowUpSearch cPageFail cEntry 1).entry = cEntry ∧
    (OrganicResultsExtractor.performFollowUpSearch cPageOk
      (OrganicResultsExtractor.performFollowUpSearch cPageFail cEntry 1).entry 1).navCount
      = 1 ∧
    (OrganicResultsExtractor.performFollowUpSearch cPageOk
      (OrganicResultsExtractor.performFollowUpSearch cPageFail cEntry 1).entry 1).result
      ≠ none := by
  refine ⟨rfl, rfl, rfl, by decide⟩

/-- Claim C6 (amended): if the first resolver call on an entry succeeds
(returns a non-null result), the second call on the updated entry — with any
page behaviour and any depth — performs no navigation and is a no-op
returning null; only after a failed first call (flag left false) can a
second call navigate again. -/
theorem follow_up_second_call_noop_after_success
    (page1 page2 : FollowUpPage) (e e1 : OrganicResult) (d1 d2 : Int)
    (fr : FollowUpResults) (n1 : Nat)
    (h : OrganicResultsExtractor.performFollowUpSearch page1 e d1 = ⟨some fr, e1, n1⟩) :
    OrganicResultsExtractor.performFollowUpSearch page2 e1 d2 = ⟨none, e1, 0⟩ := by
  cases hu : e.url with
  | none => simp [OrganicResultsExtractor.performFollowUpSearch, hu] at h
  | some url =>
    by_cases hs : e.followUpSearched = true
    · simp [OrganicResultsExtractor.performFollowUpSearch, hu, hs] at h
    · by_cases hd : d1 ≤ 0
      · simp [OrganicResultsExtractor.performFollowUpSearch, hu, hs, hd] at h
      · cases hg : page1.goto url with
        | error msg =>
          simp [OrganicResultsExtractor.performFollowUpSearch, hu, hs, hd, hg] at h
        | ok u =>
          cases ht : page1.pageTitle with
          | error msg =>
            simp [OrganicResultsExtractor.performFollowUpSearch, hu, hs, hd, hg, ht] at h
          | ok t =>
            simp [OrganicResultsExtractor.performFollowUpSearch, hu, hs, hd, hg, ht] at h
            obtain ⟨hfr, he1, hn⟩ := h
            subst he1
            simp [OrganicResultsExtractor.performFollowUpSearch, hu]

/-- Witness for the amended C6: after a concrete successful first call, the
second call is a no-op returning null with zero navigations. -/
theorem follow_up_second_call_noop_after_success_witness :
    OrganicResultsExtractor.performFollowUpSearch cPageOk
      (OrganicResultsExtractor.performFollowUpSearch cPageOk cEntry 1).entry 1 =
    ⟨none, (OrganicResultsExtractor.performFollowUpSearch cPageOk cEntry 1).entry, 0⟩ :=
  follow_up_second_call_noop_after_success cPageOk cPageOk cEntry _ 1 1
    ⟨"Example Domain", some ("body text" ++ "..."), "http://example.com"⟩ 1 rfl

/-- A follow-up page where navigation and the title read succeed but the
body-text evaluation raises (safeEvaluate catches it and yields null). -/
def cPageEvalFail : FollowUpPage :=
  ⟨fun _ => Except.ok (), Except.ok "Example Title", none⟩

/-- Claim C7 counterexample: with an extraction error while reading the body
text (safeEvaluate returns null), the resolver does not surface a null
return — it completes with a non-null triple carrying a null excerpt, and it
sets the entry's followUpSearched flag, contrary to `any navigation or
extraction error surfaces as a null return with the flag set only on
success`. -/
theorem follow_up_eval_error_sets_flag_counterexample :
    cPageEvalFail.bodyText = none ∧
    (OrganicResultsExtractor.performFollowUpSearch cPageEvalFail cEntry 1).result =
      some ⟨"Example Title", none, "http://example.com"⟩ ∧
    (OrganicResultsExtractor.performFollowUpSearch cPageEvalFail cEntry 1).entry.followUpSearched
      = true :=
  ⟨rfl, rfl, rfl⟩

/-- Claim C7 (amended): the resolver returns null without navigating and
leaves the entry unchanged when the entry's url is absent, its flag is
already set, or the depth is non-positive; a thrown navigation error or
title-read error is caught and surfaces as a null return with the entry
unchanged (flag not set); when the call returns a non-null result the flag
is set and the triple stored; and the flag is set by a call only when that
call returns a non-null result.  A body-text extraction error, however, is
swallowed inside safeEvaluate: the call still completes with a non-null
triple whose excerpt is null. -/
theorem follow_up_guards_and_error_handling (page : FollowUpPage)
    (e : OrganicResult) (d : Int) :
    (e.url = none →
      OrganicResultsExtractor.performFollowUpSearch page e d = ⟨none, e, 0⟩) ∧
    (e.followUpSearched = true →
      OrganicResultsExtractor.performFollowUpSearch page e d = ⟨none, e, 0⟩) ∧
    (d ≤ 0 →
      OrganicResultsExtractor.performFollowUpSearch page e d = ⟨none, e, 0⟩) ∧
    (∀ u msg, e.url = some u → e.followUpSearched = false → 0 < d →
      page.goto u = Except.error msg →
      OrganicResultsExtractor.performFollowUpSearch page e d = ⟨none, e, 1⟩) ∧
    (∀ u msg, e.url = some u → e.followUpSearched = false → 0 < d →
      page.goto u = Except.ok () → page.pageTitle = Except.error msg →
      OrganicResultsExtractor.performFollowUpSearch page e d = ⟨none, e, 1⟩) ∧
    ((OrganicResultsExtractor.performFollowUpSearch page e d).result.isSome = true →
      (OrganicResultsExtractor.performFollowUpSearch page e d).entry.followUpSearched = true ∧
      (OrganicResultsExtractor.performFollowUpSearch page e d).entry.followUpResults =
        (OrganicResultsExtractor.performFollowUpSearch page e d).result) ∧
    ((OrganicResultsExtractor.performFollowUpSearch page e d).entry.followUpSearched = true →
      e.followUpSearched = true ∨
      (OrganicResultsExtractor.performFollowUpSearch page e d).result.isSome = true) := by
  refine ⟨?_, ?_, ?_, ?_, ?_, ?_, ?_⟩
  · intro h
    simp [OrganicResultsExtractor.performFollowUpSearch, h]
  · intro h
    cases hu : e.url with
    | none => simp [OrganicResultsExtractor.performFollowUpSearch, hu]
    | some u => simp [OrganicResultsExtractor.performFollowUpSearch, hu, h]
  · intro h
    cases hu : e.url with
    | none => simp [OrganicResultsExtractor.performFollowUpSearch, hu]
    | some u =>
      by_cases hs : e.followUpSearched = true
      · simp [OrganicResultsExtractor.performFollowUpSearch, hu, hs]
      · simp [OrganicResultsExtractor.performFollowUpSearch, hu, hs, h]
  · intro u msg hu hs hd hg
    simp [OrganicResultsExtractor.performFollowUpSearch, hu, hs, hg, Int.not_le.mpr hd]
  · intro u msg hu hs hd hg ht
    simp [OrganicResultsExtractor.performFollowUpSearch, hu, hs, hg, ht, Int.not_le.mpr hd]
  · intro h
    cases hu : e.url with
    | none => simp [OrganicResultsExtractor.performFollowUpSearch, hu] at h
    | some u =>
      by_cases hs : e.followUpSearched = true
      · simp [OrganicResultsExtractor.performFollowUpSearch, hu, hs] at h
      · by_cases hd : d ≤ 0
        · simp [OrganicResultsExtractor.performFollowUpSearch, hu, hs, hd] at h
        · cases hg : page.goto u with
          | error msg =>
            simp [OrganicResultsExtractor.performFollowUpSearch, hu, hs, hd, hg] at h
          | ok v =>
            cases ht : page.pageTitle with
            | error msg =>
              simp [OrganicResultsExtractor.performFollowUpSearch, hu, hs, hd, hg, ht] at h
            | ok t =>
              constructor <;>
                simp [OrganicResultsExtractor.performFollowUpSearch, hu, hs, hd, hg, ht]
  · intro h
    cases hu : e.url with
    | none =>
      simp [OrganicResultsExtractor.performFollowUpSearch, hu] at h
      exact Or.inl h
    | some u =>
      by_cases hs : e.followUpSearched = true
      · exact Or.inl hs
      · by_cases hd : d ≤ 0
        · simp [OrganicResultsExtractor.performFollowUpSearch, hu, hs, hd] at h
        · cases hg : page.goto u with
          | error msg =>
            simp [OrganicResultsExtractor.performFollowUpSearch, hu, hs, hd, hg] at h
          | ok v =>
            cases ht : page.pageTitle with
            | error msg =>
              simp [OrganicResultsExtractor.performFollowUpSearch, hu, hs, hd, hg, ht] at h
            | ok t =>
              refine Or.inr ?_
              simp [OrganicResultsExtractor.performFollowUpSearch, hu, hs, hd, hg, ht]

/-- Witness for the amended C7: the three guards fire on concrete entries
(no url; flag already set; zero depth), each returning null with zero
navigations. -/
theorem follow_up_guards_and_error_handling_witness :
    OrganicResultsExtractor.performFollowUpSearch cPageOk
      ⟨1, some "Example", none, none, none, false, none⟩ 1 =
      ⟨none, ⟨1, some "Example", none, none, none, false, none⟩, 0⟩ ∧
    OrganicResultsExtractor.performFollowUpSearch cPageOk
      ⟨1, some "Example", some "http://example.com", none, none, true, none⟩ 1 =
      ⟨none, ⟨1, some "Example", some "http://example.com", none, none, true, none⟩, 0⟩ ∧
    OrganicResultsExtractor.performFollowUpSearch cPageOk cEntry 0 = ⟨none, cEntry, 0⟩ :=
  ⟨(follow_up_guards_and_error_handling cPageOk
      ⟨1, some "Example", none, none, none, false, none⟩ 1).1 rfl,
   (follow_up_guards_and_error_handling cPageOk
      ⟨1, some "Example", some "http://example.com", none, none, true, none⟩ 1).2.1 rfl,
   (follow_up_guards_and_error_handling cPageOk cEntry 0).2.2.1 (by decide)⟩

/-- A follow-up page whose body text is only three characters long. -/
def cPageShortBody : FollowUpPage :=
  ⟨fun _ => Except.ok (), Except.ok "Example Title", some "abc"⟩

/-- Claim C8 counterexample: for a body text of three characters — far below
the 1000-character cap, hence not truncated — the stored excerpt is
`abc...`: the trailing marker is appended even though the original text was
not longer than 1000 characters, contrary to `appended only if truncated`. -/
theorem follow_up_marker_short_text_counterexample :
    cPageShortBody.bodyText = some "abc" ∧
    (OrganicResultsExtractor.performFollowUpSearch cPageShortBody cEntry 1).result =
      some ⟨"Example Title", some "abc...", "http://example.com"⟩ :=
  ⟨rfl, rfl⟩

/-- Claim C8 (amended): on a successful follow-up the stored excerpt is the
first `min(1000, length)` characters of the body text — so it is capped at
1000 characters — but the trailing marker `...` is appended unconditionally
whenever the body text is non-empty, truncated or not; empty body text
stores a null excerpt. -/
theorem follow_up_excerpt_cap_and_marker (page : FollowUpPage)
    (e : OrganicResult) (d : Int) (u t c : String) (hu : e.url = some u)
    (hs : e.followUpSearched = false) (hd : 0 < d)
    (hg : page.goto u = Except.ok ()) (ht : page.pageTitle = Except.ok t)
    (hc : page.bodyText = some c) :
    (c ≠ "" →
      (OrganicResultsExtractor.performFollowUpSearch page e d).result =
        some ⟨t, some (String.mk (c.data.take 1000) ++ "..."), u⟩) ∧
    (String.mk (c.data.take 1000)).length ≤ 1000 ∧
    (c ≠ "" → c.length ≤ 1000 →
      (OrganicResultsExtractor.performFollowUpSearch page e d).result =
        some ⟨t, some (c ++ "..."), u⟩) ∧
    (c = "" →
      (OrganicResultsExtractor.performFollowUpSearch page e d).result =
        some ⟨t, none, u⟩) := by
  have hrun : ∀ hne : c ≠ "",
      (OrganicResultsExtractor.performFollowUpSearch page e d).result =
        some ⟨t, some (String.mk (c.data.take 1000) ++ "..."), u⟩ := by
    intro hne
    simp [OrganicResultsExtractor.performFollowUpSearch, hu, hs, hg, ht, hc, hne,
      Int.not_le.mpr hd]
  refine ⟨hrun, ?_, ?_, ?_⟩
  · rw [String.length_mk]
    calc (c.data.take 1000).length = min 1000 c.data.length := List.length_take 1000 c.data
    _ ≤ 1000 := Nat.min_le_left _ _
  · intro hne hle
    rw [hrun hne]
    have : c.data.take 1000 = c.data := List.take_of_length_le hle
    rw [this]
  · intro hemp
    simp [OrganicResultsExtractor.performFollowUpSearch, hu, hs, hg, ht, hc, hemp,
      Int.not_le.mpr hd]

/-- Witness for the amended C8: a three-character body text is stored as
`abc...` — the full text with the marker appended. -/
theorem follow_up_excerpt_cap_and_marker_witness :
    (OrganicResultsExtractor.performFollowUpSearch cPageShortBody cEntry 1).result =
      some ⟨"Example Title", some ("abc" ++ "..."), "http://example.com"⟩ :=
  (follow_up_excerpt_cap_and_marker cPageShortBody cEntry 1 "http://example.com"
      "Example Title" "abc" rfl rfl (by decide) rfl rfl rfl).2.2.1
    (by decide) (by decide)

/-- Claim C10: in the tabular encoding, whenever the field values (after CSV
quote-escaping) and the printed index contain no comma themselves, a
featured data row splits into exactly 5 comma-separated fields against the 4
columns its header declares, and a video data row splits into exactly 6
fields against its header's 5 — one extra field in each case, because the
1-based index is inserted after the Type column with no header column of its
own. -/
theorem csv_row_field_count_mismatch (i : Nat) (snippet : FeaturedSnippet)
    (video : VideoResult)
    (hn : (toString (i + 1)).data.count ',' = 0)
    (h1 : (escapeCsvField (jsOr snippet.content "")).data.count ',' = 0)
    (h2 : (escapeCsvField (jsOr snippet.source "")).data.count ',' = 0)
    (h3 : (escapeCsvField (jsOr snippet.url "")).data.count ',' = 0)
    (h4 : (escapeCsvField (jsOr video.title "")).data.count ',' = 0)
    (h5 : (escapeCsvField (jsOr video.source "")).data.count ',' = 0)
    (h6 : (escapeCsvField (jsOr video.duration "")).data.count ',' = 0)
    (h7 : (escapeCsvField (jsOr video.url "")).data.count ',' = 0) :
    (csvFields (featuredCsvLine i snippet)).length = 5 ∧
    (csvFields featuredCsvHeader).length = 4 ∧
    (csvFields (videoCsvLine i video)).length = 6 ∧
    (csvFields videoCsvHeader).length = 5 := by
  refine ⟨?_, ?_, ?_, ?_⟩
  · rw [csvFields, List.length_map, splitFields_length, featuredCsvLine]
    simp only [String.data_append, List.count_append, hn, h1, h2, h3]
    decide
  · rw [csvFields, List.length_map, splitFields_length]
    decide
  · rw [csvFields, List.length_map, splitFields_length, videoCsvLine]
    simp only [String.data_append, List.count_append, hn, h4, h5, h6, h7]
    decide
  · rw [csvFields, List.length_map, splitFields_length]
    decide

/-- Witness for C10 at a concrete snippet and video with comma-free
fields. -/
theorem csv_row_field_count_mismatch_witness :
    (csvFields (featuredCsvLine 0 ⟨some "A", some "B", some "C"⟩)).length = 5 ∧
    (csvFields featuredCsvHeader).length = 4 ∧
    (csvFields (videoCsvLine 0 ⟨some "T", some "S", some "D", some "U"⟩)).length = 6 ∧
    (csvFields videoCsvHeader).length = 5 :=
  csv_row_field_count_mismatch 0 ⟨some "A", some "B", some "C"⟩
    ⟨some "T", some "S", some "D", some "U"⟩
    (by decide) (by decide) (by decide) (by decide) (by decide) (by decide)
    (by decide) (by decide)
